import Mathlib

/-!
Shallow embedding of the rhub lab/bare-metal data model
(`rhub/lab/model.py`, `rhub/api/lab/region.py`, `rhub/api/utils.py`,
`rhub/bare_metal/model/provision.py`) and proofs about it.

Python JSON values relevant to product parameters are modelled by `PValue`;
Python dicts by association lists in insertion order.
-/

namespace Rhub

/-- A JSON scalar value as Python distinguishes them: `bool` is a distinct
runtime type from `int` (`type(True) is int` is `False`), which matters for
the `integer` type check in `Product.validate_cluster_params`. -/
inductive PValue where
  | str (s : String)
  | int (n : Int)
  | bool (b : Bool)
  deriving DecidableEq, Repr

def PValue.isStr : PValue → Bool
  | .str _ => true
  | _ => false

def PValue.isInt : PValue → Bool
  | .int _ => true
  | _ => false

def PValue.isBool : PValue → Bool
  | .bool _ => true
  | _ => false

/-- Python `==` on JSON scalars: `True == 1` and `False == 0` hold across
`bool`/`int`, values of other distinct types compare unequal. Used for the
`enum` membership test (`in` uses `==`). -/
def PValue.pyEq : PValue → PValue → Bool
  | .str a, .str b => a == b
  | .int a, .int b => a == b
  | .bool a, .bool b => a == b
  | .int a, .bool b => a == (if b then (1 : Int) else 0)
  | .bool a, .int b => (if a then (1 : Int) else 0) == b
  | _, _ => false

/-- Lookup in a Python-dict-as-association-list (first binding wins; a real
dict has unique keys). -/
def lookupA {α : Type} : List (String × α) → String → Option α
  | [], _ => none
  | (k', v) :: rest, k => if k' == k then some v else lookupA rest k

/-- Python dict assignment `d[k] = v`: replaces the existing binding in
place, otherwise appends (insertion order preserved). -/
def dictInsert {α : Type} : List (String × α) → String → α → List (String × α)
  | [], k, v => [(k, v)]
  | (k', v') :: rest, k, v =>
      if k' == k then (k, v) :: rest else (k', v') :: dictInsert rest k v

/-- One entry of `Product.parameters`: a declared cluster parameter. -/
structure ParamSpec where
  var : String
  type : String
  required : Bool
  default : Option PValue := none
  enum : Option (List PValue) := none
  deriving DecidableEq, Repr

/-- `Product` (`lab/model.py`), restricted to the fields the claims need. -/
structure Product where
  name : String
  enabled : Bool := true
  parameters : List ParamSpec
  deriving Repr

/-- `Product.parameters_variables`. -/
def Product.parameters_variables (p : Product) : List String :=
  p.parameters.map (fun ps => ps.var)

/-- The `extra_params` set of `validate_cluster_params`:
`set(cluster_params) - set(self.parameters_variables)`. -/
def Product.extra_params (p : Product) (cluster_params : List (String × PValue)) :
    List String :=
  ((cluster_params.map Prod.fst).dedup).filter
    (fun k => !(p.parameters_variables.contains k))

/-- The body of the `for param_spec in self.parameters` loop of
`validate_cluster_params`: the reason recorded for `param_spec.var`, if any.
Mirrors the source order: missing/required, then the `string`/`integer`/
`boolean` `elif` chain (`integer` uses an exact `type(...) is int` test, so a
`bool` value fails it), then the `enum` membership test. -/
def checkParamSpec (cluster_params : List (String × PValue)) (ps : ParamSpec) :
    Option String :=
  match lookupA cluster_params ps.var with
  | none => if ps.required then some "is required" else none
  | some v =>
      if ps.type == "string" && !v.isStr then some "must be a string"
      else if ps.type == "integer" && !v.isInt then some "must be an integer"
      else if ps.type == "boolean" && !v.isBool then some "must be a boolean"
      else
        match ps.enum with
        | some e => if !(e.any (fun x => PValue.pyEq v x)) then
                      some "value not allowed"
                    else none
        | none => none

/-- The `invalid_params` dict built by `Product.validate_cluster_params`:
first every unknown variable maps to `not allowed`, then the declared
parameters are scanned in order and each violation is recorded. -/
def Product.invalid_params (p : Product) (cluster_params : List (String × PValue)) :
    List (String × String) :=
  let init := (p.extra_params cluster_params).map (fun k => (k, "not allowed"))
  p.parameters.foldl
    (fun acc ps =>
      match checkParamSpec cluster_params ps with
      | some reason => dictInsert acc ps.var reason
      | none => acc)
    init

/-- `Product.validate_cluster_params`: raises `ValueError(invalid_params)`
iff the collected dict is non-empty. -/
def Product.validate_cluster_params (p : Product)
    (cluster_params : List (String × PValue)) :
    Except (List (String × String)) Unit :=
  if (p.invalid_params cluster_params).isEmpty then Except.ok ()
  else Except.error (p.invalid_params cluster_params)

/-- Spec-side, per-variable reading of the validation rules, written from the
claim: unknown variables map to `not allowed`, required-and-missing to
`is required`, wrong-typed values to `must be a (type)`, enum-violating
values to `value not allowed`; otherwise no violation. -/
def claimParamReason (p : Product) (cluster_params : List (String × PValue))
    (v : String) : Option String :=
  match p.parameters.find? (fun ps => ps.var == v) with
  | none =>
      match lookupA cluster_params v with
      | some _ => some "not allowed"
      | none => none
  | some ps =>
      match lookupA cluster_params v with
      | none => if ps.required then some "is required" else none
      | some x =>
          if ps.type == "string" && !x.isStr then some "must be a string"
          else if ps.type == "integer" && !x.isInt then some "must be an integer"
          else if ps.type == "boolean" && !x.isBool then some "must be a boolean"
          else
            match ps.enum with
            | some e => if !(e.any (fun y => PValue.pyEq x y)) then
                          some "value not allowed"
                        else none
            | none => none

theorem option_match_some_id {α : Type} (o : Option α) :
    (match o with | some r => some r | none => none) = o := by
  cases o <;> rfl

theorem lookupA_dictInsert {α : Type} (l : List (String × α)) (k : String)
    (v : α) (x : String) :
    lookupA (dictInsert l k v) x = if k = x then some v else lookupA l x := by
  induction l with
  | nil => simp [dictInsert, lookupA, beq_iff_eq]
  | cons hd tl ih =>
      obtain ⟨k', v'⟩ := hd
      by_cases hk : k' = k
      · subst hk
        by_cases hx : k' = x <;> simp [dictInsert, lookupA, beq_iff_eq, hx]
      · by_cases hx : k' = x
        · subst hx
          have hkx : ¬ k = k' := fun h => hk h.symm
          simp [dictInsert, lookupA, beq_iff_eq, hk, hkx]
        · simp [dictInsert, lookupA, beq_iff_eq, hk, hx, ih]

theorem lookupA_isSome_iff {α : Type} (l : List (String × α)) (v : String) :
    (lookupA l v).isSome ↔ v ∈ l.map Prod.fst := by
  induction l with
  | nil => simp [lookupA]
  | cons hd tl ih =>
      obtain ⟨k', w⟩ := hd
      by_cases h : k' = v
      · subst h; simp [lookupA]
      · simp [lookupA, beq_iff_eq, h, ih, Ne.symm h]

theorem lookupA_map_const {α : Type} (l : List String) (c : α) (v : String) :
    lookupA (l.map (fun k => (k, c))) v =
      if v ∈ l then some c else none := by
  induction l with
  | nil => simp [lookupA]
  | cons hd tl ih =>
      by_cases h : hd = v
      · subst h; simp [lookupA]
      · simp [lookupA, beq_iff_eq, h, ih, Ne.symm h]

theorem lookupA_foldl_check (cluster_params : List (String × PValue))
    (specs : List ParamSpec) (acc : List (String × String)) (v : String)
    (hnd : (specs.map (fun ps => ps.var)).Nodup) :
    lookupA
      (specs.foldl
        (fun acc ps =>
          match checkParamSpec cluster_params ps with
          | some reason => dictInsert acc ps.var reason
          | none => acc)
        acc) v =
    match specs.find? (fun ps => ps.var == v) with
    | some ps =>
        match checkParamSpec cluster_params ps with
        | some reason => some reason
        | none => lookupA acc v
    | none => lookupA acc v := by
  induction specs generalizing acc with
  | nil => simp [List.find?]
  | cons hd tl ih =>
      simp only [List.map_cons, List.nodup_cons] at hnd
      obtain ⟨hvar, hnd'⟩ := hnd
      rw [List.foldl_cons]
      by_cases hv : hd.var = v
      · have hfind : tl.find? (fun ps => ps.var == v) = none := by
          rw [List.find?_eq_none]
          intro ps hps
          simp only [beq_iff_eq]
          intro hcontra
          have hm : ps.var ∈ List.map (fun x => x.var) tl :=
            List.mem_map_of_mem _ hps
          rw [hcontra, ← hv] at hm
          exact hvar hm
        have hhd : (List.find? (fun ps => ps.var == v) (hd :: tl)) = some hd :=
          List.find?_cons_of_pos _ (by simp [hv])
        rw [hhd]
        cases hc : checkParamSpec cluster_params hd with
        | some reason =>
            simp only [hc]
            rw [ih _ hnd', hfind, lookupA_dictInsert]
            simp [hv]
        | none =>
            simp only [hc]
            rw [ih _ hnd', hfind]
      · have hhd : (List.find? (fun ps => ps.var == v) (hd :: tl)) =
            tl.find? (fun ps => ps.var == v) :=
          List.find?_cons_of_neg _ (by simp [hv])
        rw [hhd]
        cases hc : checkParamSpec cluster_params hd with
        | some reason =>
            simp only [hc]
            rw [ih _ hnd']
            have hins : lookupA (dictInsert acc hd.var reason) v = lookupA acc v := by
              rw [lookupA_dictInsert]; simp [hv]
            cases hf : tl.find? (fun ps => ps.var == v) with
            | some ps => simp [hins]
            | none => simp [hins]
        | none =>
            simp only [hc]
            rw [ih _ hnd']

theorem find?_var_unique (specs : List ParamSpec) (ps : ParamSpec)
    (hnd : (specs.map (fun x => x.var)).Nodup) (hmem : ps ∈ specs) :
    specs.find? (fun x => x.var == ps.var) = some ps := by
  induction specs with
  | nil => cases hmem
  | cons hd tl ih =>
      simp only [List.map_cons, List.nodup_cons] at hnd
      obtain ⟨hvar, hnd'⟩ := hnd
      rcases List.mem_cons.mp hmem with heq | htl
      · subst heq
        exact List.find?_cons_of_pos _ (by simp)
      · have hne : hd.var ≠ ps.var := by
          intro hcontra
          have hm : ps.var ∈ List.map (fun x => x.var) tl :=
            List.mem_map_of_mem _ htl
          rw [← hcontra] at hm
          exact hvar hm
        rw [List.find?_cons_of_neg _ (by simp [hne])]
        exact ih hnd' htl

/-- Key refinement lemma: the `invalid_params` dict built by the source code
agrees, entry by entry, with the claim's per-variable rules. -/
theorem lookupA_invalid_params (p : Product) (cp : List (String × PValue))
    (hnd : (p.parameters.map (fun ps => ps.var)).Nodup) (v : String) :
    lookupA (p.invalid_params cp) v = claimParamReason p cp v := by
  unfold Product.invalid_params claimParamReason
  rw [lookupA_foldl_check cp p.parameters _ v hnd]
  cases hf : p.parameters.find? (fun ps => ps.var == v) with
  | some ps =>
      have hvar : ps.var = v := by
        have := List.find?_some hf
        simpa [beq_iff_eq] using this
      have hmemvar : v ∈ p.parameters_variables := by
        unfold Product.parameters_variables
        rw [← hvar]
        exact List.mem_map_of_mem _ (List.mem_of_find?_eq_some hf)
      have hnotex : v ∉ p.extra_params cp := by
        unfold Product.extra_params
        intro hmem
        rcases List.mem_filter.mp hmem with ⟨_, hnotin⟩
        rw [Bool.not_eq_eq_eq_not, Bool.not_true] at hnotin
        have : v ∈ p.parameters_variables → False := by
          intro hv
          have helem : p.parameters_variables.elem v = true := List.elem_iff.mpr hv
          rw [List.contains] at hnotin
          rw [hnotin] at helem
          cases helem
        exact this hmemvar
      have hinit : lookupA ((p.extra_params cp).map (fun k => (k, "not allowed"))) v
          = none := by
        rw [lookupA_map_const]
        simp [hnotex]
      cases hl : lookupA cp v with
      | none =>
          simp only [checkParamSpec, hvar, hl, hinit]
          split
          · rename_i reason heq
            exact heq.symm
          · rename_i heq
            exact heq.symm
      | some x =>
          simp only [checkParamSpec, hvar, hl, hinit]
          split
          · rename_i reason heq
            exact heq.symm
          · rename_i heq
            exact heq.symm
  | none =>
      have hnotvar : v ∉ p.parameters_variables := by
        unfold Product.parameters_variables
        intro hmem
        rcases List.mem_map.mp hmem with ⟨ps, hps, hvar⟩
        have hne : p.parameters.find? (fun x => x.var == v) ≠ none := by
          intro hcontra
          rw [List.find?_eq_none] at hcontra
          have hforall := hcontra ps hps
          simp only [beq_iff_eq] at hforall
          exact hforall hvar
        exact hne hf
      rw [lookupA_map_const]
      cases hl : lookupA cp v with
      | some x =>
          have hmem : v ∈ cp.map Prod.fst := by
            rw [← lookupA_isSome_iff]; simp [hl]
          have hextra : v ∈ p.extra_params cp := by
            unfold Product.extra_params
            refine List.mem_filter.mpr ⟨List.mem_dedup.mpr hmem, ?_⟩
            rw [Bool.not_eq_eq_eq_not, Bool.not_true]
            rw [List.contains]
            rw [Bool.eq_false_iff]
            intro helem
            exact hnotvar (List.elem_iff.mp helem)
          simp [hextra]
      | none =>
          have hmem : v ∉ cp.map Prod.fst := by
            rw [← lookupA_isSome_iff]; simp [hl]
          have hextra : v ∉ p.extra_params cp := by
            unfold Product.extra_params
            intro hc
            exact hmem (List.mem_dedup.mp (List.mem_filter.mp hc).1)
          simp [hextra]

/-- C1: for every Product parameter schema and input mapping,
`validate_cluster_params` collects every violated variable into a single
mapping from variable to reason — unknown variables map to `not allowed`,
required-and-missing to `is required`, wrong-typed values to `must be a
(type)`, enum-violating values to `value not allowed` — it succeeds without
effect when there are no violations, and otherwise raises the complete
mapping (it never stops at the first violation). -/
theorem c1_validate_cluster_params_collects_all (p : Product)
    (cp : List (String × PValue))
    (hnd : (p.parameters.map (fun ps => ps.var)).Nodup) :
    (p.validate_cluster_params cp = Except.ok () ↔
      ∀ v, claimParamReason p cp v = none) ∧
    (∀ m, p.validate_cluster_params cp = Except.error m →
      m ≠ [] ∧ ∀ v, lookupA m v = claimParamReason p cp v) := by
  cases hinv : p.invalid_params cp with
  | nil =>
      refine ⟨⟨fun _ v => ?_, fun _ => ?_⟩, fun m hm => ?_⟩
      · rw [← lookupA_invalid_params p cp hnd v, hinv]
        rfl
      · simp [Product.validate_cluster_params, hinv]
      · simp [Product.validate_cluster_params, hinv] at hm
  | cons hd tl =>
      have hlk : lookupA (p.invalid_params cp) hd.1 = some hd.2 := by
        rw [hinv]
        obtain ⟨k, r⟩ := hd
        simp [lookupA]
      refine ⟨⟨fun hok => ?_, fun hall => ?_⟩, fun m hm => ?_⟩
      · exfalso
        simp [Product.validate_cluster_params, hinv] at hok
      · exfalso
        have h1 := hall hd.1
        rw [← lookupA_invalid_params p cp hnd hd.1] at h1
        rw [h1] at hlk
        cases hlk
      · have hme : p.invalid_params cp = m := by
          unfold Product.validate_cluster_params at hm
          rw [hinv] at hm ⊢
          simpa using hm
        refine ⟨?_, fun v => ?_⟩
        · rw [← hme, hinv]
          simp
        · rw [← hme]
          exact lookupA_invalid_params p cp hnd v

theorem c1_witness :
    ((Product.mk "p" true [ParamSpec.mk "count" "integer" true none none]).validate_cluster_params
        [("extra", PValue.str "x")] = Except.ok () ↔
      ∀ v, claimParamReason
        (Product.mk "p" true [ParamSpec.mk "count" "integer" true none none])
        [("extra", PValue.str "x")] v = none) ∧
    (∀ m, (Product.mk "p" true [ParamSpec.mk "count" "integer" true none none]).validate_cluster_params
        [("extra", PValue.str "x")] = Except.error m →
      m ≠ [] ∧ ∀ v, lookupA m v = claimParamReason
        (Product.mk "p" true [ParamSpec.mk "count" "integer" true none none])
        [("extra", PValue.str "x")] v) :=
  c1_validate_cluster_params_collects_all
    (Product.mk "p" true [ParamSpec.mk "count" "integer" true none none])
    [("extra", PValue.str "x")] (by decide)

/-- C2: a variable declared with type `integer` that is bound to a boolean
value in the input is always reported with reason `must be an integer`: a
boolean is never accepted where an integer is declared (the source uses an
exact runtime-type test, not numeric subtyping). -/
theorem c2_integer_never_accepts_bool (p : Product) (cp : List (String × PValue))
    (ps : ParamSpec) (hnd : (p.parameters.map (fun x => x.var)).Nodup)
    (hmem : ps ∈ p.parameters) (ht : ps.type = "integer") (b : Bool)
    (hv : lookupA cp ps.var = some (PValue.bool b)) :
    ∃ m, p.validate_cluster_params cp = Except.error m ∧
      lookupA m ps.var = some "must be an integer" := by
  have hclaim : claimParamReason p cp ps.var = some "must be an integer" := by
    unfold claimParamReason
    rw [find?_var_unique p.parameters ps hnd hmem, hv]
    simp [ht, PValue.isStr, PValue.isInt]
  have hlk : lookupA (p.invalid_params cp) ps.var = some "must be an integer" :=
    (lookupA_invalid_params p cp hnd ps.var).trans hclaim
  cases hinv : p.invalid_params cp with
  | nil =>
      rw [hinv] at hlk
      cases hlk
  | cons hd tl =>
      refine ⟨hd :: tl, ?_, ?_⟩
      · simp [Product.validate_cluster_params, hinv]
      · rw [← hinv]
        exact hlk

theorem c2_witness :
    ∃ m, (Product.mk "p" true [ParamSpec.mk "count" "integer" true none none]).validate_cluster_params
        [("count", PValue.bool true)] = Except.error m ∧
      lookupA m "count" = some "must be an integer" :=
  c2_integer_never_accepts_bool
    (Product.mk "p" true [ParamSpec.mk "count" "integer" true none none])
    [("count", PValue.bool true)]
    (ParamSpec.mk "count" "integer" true none none)
    (by decide) (by simp) rfl true rfl

/-- `Cluster.RESERVED_NAMES`. -/
def RESERVED_NAMES : List String :=
  ["localhost", "all", "ungrouped", "lab", "cluster", "region", "tower"]

/-- Python `str.lower()`, character-wise (only ASCII letters occur in the
strings involved here). -/
def strToLower (s : String) : String := String.mk (s.data.map Char.toLower)

/-- Membership of a character in the regex class `[0-9a-z]`. -/
def isLowerAlnum (c : Char) : Bool :=
  ('0' ≤ c && c ≤ '9') || ('a' ≤ c && c ≤ 'z')

/-- Python `re.match` applied to the source pattern, anchored `[0-9a-z]+` at
both ends. In Python, `$` matches at the end of the string or just before a
newline that is the last character, so the pattern accepts a non-empty run of
`[0-9a-z]` optionally followed by one final newline. -/
def reMatchLowerAlnum (s : String) : Bool :=
  let l := s.data
  let core := l.takeWhile isLowerAlnum
  let rest := l.drop core.length
  !core.isEmpty && (rest.isEmpty || rest == ['\n'])

/-- `Cluster` (`lab/model.py`), restricted to the fields the claims need. -/
structure Cluster where
  id : Nat
  name : String
  user_id : String
  region_id : Nat
  reservation_expiration : Option Int := none
  lifespan_expiration : Option Int := none
  deriving DecidableEq, Repr

/-- `Cluster.validate_name` (the `@validates('name')` hook): checks in source
order — reserved name, too short, too long, character set — and returns the
value unchanged when every check passes. -/
def Cluster.validate_name (value : String) : Except String String :=
  if RESERVED_NAMES.contains (strToLower value) then
    Except.error "is reserved name"
  else if value.length < 6 then
    Except.error "Cluster name is too short"
  else if value.length > 20 then
    Except.error "Cluster name is too long"
  else if !reMatchLowerAlnum value then
    Except.error "Cluster name contains invalid characters"
  else
    Except.ok value

/-- Assignment of `Cluster.name` (creation or rename): the validator runs at
the point of mutation, so on failure the attribute keeps its previous value. -/
def Cluster.set_name (c : Cluster) (value : String) : Except String Cluster :=
  match Cluster.validate_name value with
  | Except.ok v => Except.ok { c with name := v }
  | Except.error e => Except.error e

/-- The claim's acceptance condition, read literally: length between 6 and 20,
every character in `[0-9a-z]` (no uppercase, no symbols) with at least one
character, and the lowercased form not reserved. -/
def claimNameOk (s : String) : Prop :=
  6 ≤ s.length ∧ s.length ≤ 20 ∧ s.data ≠ [] ∧
    (∀ ch ∈ s.data, isLowerAlnum ch = true) ∧ strToLower s ∉ RESERVED_NAMES

instance (s : String) : Decidable (claimNameOk s) := by
  unfold claimNameOk
  infer_instance

/-- The amended acceptance condition: as the claim, except that the character
test is Python `re.match` of the anchored pattern, which also accepts a
single trailing newline. -/
def amendedNameOk (s : String) : Prop :=
  6 ≤ s.length ∧ s.length ≤ 20 ∧ reMatchLowerAlnum s = true ∧
    strToLower s ∉ RESERVED_NAMES

instance (s : String) : Decidable (amendedNameOk s) := by
  unfold amendedNameOk
  infer_instance

theorem validate_name_ok_val (value v : String)
    (h : Cluster.validate_name value = Except.ok v) : v = value := by
  unfold Cluster.validate_name at h
  split at h
  · cases h
  · split at h
    · cases h
    · split at h
      · cases h
      · split at h
        · cases h
        · cases h
          rfl

theorem validate_name_ok_iff (value : String) :
    Cluster.validate_name value = Except.ok value ↔ amendedNameOk value := by
  constructor
  · intro h
    unfold Cluster.validate_name at h
    split at h
    · cases h
    · rename_i hres
      split at h
      · cases h
      · rename_i hshort
        split at h
        · cases h
        · rename_i hlong
          split at h
          · cases h
          · rename_i hmatch
            refine ⟨Nat.le_of_not_lt hshort, Nat.le_of_not_lt hlong, ?_, ?_⟩
            · revert hmatch
              cases reMatchLowerAlnum value <;> simp
            · intro hmem
              exact hres (List.elem_iff.mpr hmem)
  · rintro ⟨ha, hb, hc, hd⟩
    unfold Cluster.validate_name
    have g1 : ¬ (RESERVED_NAMES.contains (strToLower value) = true) :=
      fun h => hd (List.elem_iff.mp h)
    have g2 : ¬ (value.length < 6) := Nat.not_lt.mpr ha
    have g3 : ¬ (value.length > 20) := Nat.not_lt.mpr hb
    have g4 : ¬ ((!reMatchLowerAlnum value) = true) := by simp [hc]
    rw [if_neg g1, if_neg g2, if_neg g3, if_neg g4]

/-- C3 counterexample: the name consisting of `abcdef` followed by a newline
is accepted by the source validator (Python `$` tolerates one trailing
newline), but the claim's condition — every character in `[0-9a-z]` — rejects
it, so the claimed equivalence fails. -/
theorem c3_counterexample :
    Cluster.set_name (Cluster.mk 1 "oldname" "user1" 1 none none) "abcdef\n" =
      Except.ok (Cluster.mk 1 "abcdef\n" "user1" 1 none none) ∧
    ¬ claimNameOk "abcdef\n" := by
  constructor
  · unfold Cluster.set_name
    rw [(validate_name_ok_iff "abcdef\n").mpr (by decide)]
  · decide

/-- C3 (amended): a cluster-name assignment (creation or rename) succeeds,
storing exactly the new name and changing nothing else, if and only if the
length is between 6 and 20, the string matches the anchored `[0-9a-z]+`
pattern under Python `re.match` semantics (which also admits one trailing
newline), and the lowercased form is not in the reserved set; otherwise it
raises and the name is unchanged. -/
theorem c3_name_assignment_iff (c : Cluster) (value : String) :
    (Cluster.set_name c value = Except.ok { c with name := value } ↔
      amendedNameOk value) ∧
    (¬ amendedNameOk value → ∃ e, Cluster.set_name c value = Except.error e) := by
  constructor
  · constructor
    · intro h
      unfold Cluster.set_name at h
      cases hv : Cluster.validate_name value with
      | ok v =>
          have hval : v = value := validate_name_ok_val value v hv
          rw [hval] at hv
          exact (validate_name_ok_iff value).mp hv
      | error e =>
          rw [hv] at h
          cases h
    · intro ham
      unfold Cluster.set_name
      rw [(validate_name_ok_iff value).mpr ham]
  · intro ham
    cases hv : Cluster.validate_name value with
    | ok v =>
        have hval : v = value := validate_name_ok_val value v hv
        rw [hval] at hv
        exact absurd ((validate_name_ok_iff value).mp hv) ham
    | error e =>
        refine ⟨e, ?_⟩
        unfold Cluster.set_name
        rw [hv]

theorem c3_witness :
    (Cluster.set_name (Cluster.mk 7 "oldname" "user1" 1 none none) "mycluster" =
        Except.ok (Cluster.mk 7 "mycluster" "user1" 1 none none) ↔
      amendedNameOk "mycluster") ∧
    (¬ amendedNameOk "mycluster" →
      ∃ e, Cluster.set_name (Cluster.mk 7 "oldname" "user1" 1 none none) "mycluster" =
        Except.error e) :=
  c3_name_assignment_iff (Cluster.mk 7 "oldname" "user1" 1 none none) "mycluster"

/-- `ClusterHost` (`lab/model.py`): the four consumption columns are
nullable. -/
structure ClusterHost where
  id : Nat
  cluster_id : Nat
  fqdn : String
  num_vcpus : Option Int := none
  ram_mb : Option Int := none
  num_volumes : Option Int := none
  volumes_gb : Option Int := none
  deriving DecidableEq, Repr

/-- `Region` (`lab/model.py`), restricted to the fields the claims need.
The two quota associations are stored as the JSON mappings they were built
from (`Quota.from_dict` keeps exactly the given entries). -/
structure Region where
  id : Nat
  name : String
  user_quota : Option (List (String × Option Int)) := none
  total_quota : Option (List (String × Option Int)) := none
  openstack_credentials : String := ""
  satellite_credentials : String := ""
  dns_server_key : String := ""
  owner_group : String := ""
  deriving DecidableEq, Repr

/-- The relational tables the aggregation queries run over. -/
structure Database where
  regions : List Region
  clusters : List Cluster
  cluster_hosts : List ClusterHost
  deriving Repr

/-- SQL `coalesce(sum(column), 0)`: `SUM` skips NULL cells and is NULL over an
empty set; `coalesce` maps that NULL to 0. Altogether: the sum of the
non-null cells, 0 when there are none. -/
def sqlSumCoalesce (cells : List (Option Int)) : Int :=
  (cells.filterMap id).sum

/-- The join `ClusterHost JOIN Cluster ON ClusterHost.cluster_id = Cluster.id`
used by both usage queries. -/
def joinHostCluster (db : Database) : List (ClusterHost × Cluster) :=
  db.cluster_hosts.flatMap
    (fun h => (db.clusters.filter (fun c => c.id == h.cluster_id)).map
      (fun c => (h, c)))

/-- The filtered row set of `Region.get_user_quota_usage` /
`get_total_quota_usage`: joined rows restricted by a cluster-side `WHERE`
condition. -/
def usageRows (db : Database) (p : Cluster → Bool) : List (ClusterHost × Cluster) :=
  (joinHostCluster db).filter (fun hc => p hc.2)

/-- `Region.get_user_quota_usage`: aggregate the four consumption columns over
the joined host rows of the region's clusters owned by the given user,
`coalesce(sum(...), 0)` per column, zipped with the four result keys. -/
def Region.get_user_quota_usage (db : Database) (r : Region) (user_id : String) :
    List (String × Int) :=
  [("num_vcpus", sqlSumCoalesce ((usageRows db
      (fun c => c.region_id == r.id && c.user_id == user_id)).map (fun hc => hc.1.num_vcpus))),
   ("ram_mb", sqlSumCoalesce ((usageRows db
      (fun c => c.region_id == r.id && c.user_id == user_id)).map (fun hc => hc.1.ram_mb))),
   ("num_volumes", sqlSumCoalesce ((usageRows db
      (fun c => c.region_id == r.id && c.user_id == user_id)).map (fun hc => hc.1.num_volumes))),
   ("volumes_gb", sqlSumCoalesce ((usageRows db
      (fun c => c.region_id == r.id && c.user_id == user_id)).map (fun hc => hc.1.volumes_gb)))]

/-- `Region.get_total_quota_usage`: as the per-user variant without the user
condition. -/
def Region.get_total_quota_usage (db : Database) (r : Region) :
    List (String × Int) :=
  [("num_vcpus", sqlSumCoalesce ((usageRows db
      (fun c => c.region_id == r.id)).map (fun hc => hc.1.num_vcpus))),
   ("ram_mb", sqlSumCoalesce ((usageRows db
      (fun c => c.region_id == r.id)).map (fun hc => hc.1.ram_mb))),
   ("num_volumes", sqlSumCoalesce ((usageRows db
      (fun c => c.region_id == r.id)).map (fun hc => hc.1.num_volumes))),
   ("volumes_gb", sqlSumCoalesce ((usageRows db
      (fun c => c.region_id == r.id)).map (fun hc => hc.1.volumes_gb)))]

/-- Spec-side: the ClusterHost rows belonging to the region's clusters that
are owned by the given user. -/
def claimRegionHostsUser (db : Database) (r : Region) (uid : String) :
    List ClusterHost :=
  db.cluster_hosts.filter (fun h =>
    db.clusters.any (fun c =>
      c.id == h.cluster_id && (c.region_id == r.id && c.user_id == uid)))

/-- Spec-side: the ClusterHost rows belonging to the region's clusters. -/
def claimRegionHostsAll (db : Database) (r : Region) : List ClusterHost :=
  db.cluster_hosts.filter (fun h =>
    db.clusters.any (fun c => c.id == h.cluster_id && c.region_id == r.id))

/-- Spec-side: componentwise sum of one consumption field over a host list,
a null cell contributing zero. -/
def claimFieldSum (hosts : List ClusterHost) (field : ClusterHost → Option Int) :
    Int :=
  (hosts.map (fun h => (field h).getD 0)).sum

theorem sqlSumCoalesce_append (a b : List (Option Int)) :
    sqlSumCoalesce (a ++ b) = sqlSumCoalesce a + sqlSumCoalesce b := by
  unfold sqlSumCoalesce
  rw [List.filterMap_append, List.sum_append]

theorem filter_id_unique (clusters : List Cluster) (n : Nat)
    (hnd : (clusters.map (fun c => c.id)).Nodup) :
    clusters.filter (fun c => c.id == n) = [] ∨
      ∃ c ∈ clusters, c.id = n ∧ clusters.filter (fun c => c.id == n) = [c] := by
  induction clusters with
  | nil => exact Or.inl rfl
  | cons hd tl ih =>
      simp only [List.map_cons, List.nodup_cons] at hnd
      obtain ⟨hid, hnd'⟩ := hnd
      by_cases h : hd.id = n
      · refine Or.inr ⟨hd, List.mem_cons_self hd tl, h, ?_⟩
        have htl : tl.filter (fun c => c.id == n) = [] := by
          rw [List.filter_eq_nil_iff]
          intro c hc
          simp only [beq_iff_eq]
          intro hcontra
          have hm : c.id ∈ List.map (fun c => c.id) tl := List.mem_map_of_mem _ hc
          rw [hcontra, ← h] at hm
          exact hid hm
        rw [List.filter_cons_of_pos (by simp [h]), htl]
      · rw [List.filter_cons_of_neg (by simp [h])]
        rcases ih hnd' with hnil | ⟨c, hc, hcn, heq⟩
        · exact Or.inl hnil
        · exact Or.inr ⟨c, List.mem_cons_of_mem _ hc, hcn, heq⟩

/-- Core aggregation lemma: for a cluster table with unique primary keys, the
SQL-style join-filter-sum equals the spec's per-host filtered sum with null
cells counting as zero, for any row predicate on the cluster side and any
consumption column. -/
theorem join_filter_sum (db : Database) (p : Cluster → Bool)
    (f : ClusterHost → Option Int)
    (hnd : (db.clusters.map (fun c => c.id)).Nodup) :
    sqlSumCoalesce ((usageRows db p).map (fun hc => f hc.1)) =
    claimFieldSum
      (db.cluster_hosts.filter (fun h =>
        db.clusters.any (fun c => c.id == h.cluster_id && p c))) f := by
  unfold usageRows joinHostCluster claimFieldSum
  induction db.cluster_hosts with
  | nil => simp [sqlSumCoalesce]
  | cons h rest ih =>
      rw [List.flatMap_cons, List.filter_append, List.map_append,
        sqlSumCoalesce_append, ih]
      rcases filter_id_unique db.clusters h.cluster_id hnd with hnil | ⟨c, hc, hcn, heq⟩
      · have hany : db.clusters.any (fun c => c.id == h.cluster_id && p c) = false := by
          rw [List.any_eq_false]
          intro c hcmem
          simp only [Bool.and_eq_true, beq_iff_eq, not_and]
          intro hcid
          exfalso
          have : c ∈ db.clusters.filter (fun c => c.id == h.cluster_id) :=
            List.mem_filter.mpr ⟨hcmem, by simp [hcid]⟩
          rw [hnil] at this
          cases this
        rw [hnil]
        rw [List.filter_cons_of_neg (by simp [hany])]
        simp [sqlSumCoalesce]
      · rw [heq]
        by_cases hpc : p c = true
        · have hany : db.clusters.any (fun c => c.id == h.cluster_id && p c) = true := by
            rw [List.any_eq_true]
            exact ⟨c, hc, by simp [hcn, hpc]⟩
          rw [List.filter_cons_of_pos (by simp [hany])]
          simp only [List.map_cons, List.filter_cons]
          simp only [hpc]
          cases hf : f h with
          | none => simp [sqlSumCoalesce, hf]
          | some v => simp [sqlSumCoalesce, hf]
        · have hany : db.clusters.any (fun c => c.id == h.cluster_id && p c) = false := by
            rw [List.any_eq_false]
            intro c' hcmem
            simp only [Bool.and_eq_true, beq_iff_eq, not_and]
            intro hcid
            have : c' ∈ db.clusters.filter (fun c => c.id == h.cluster_id) :=
              List.mem_filter.mpr ⟨hcmem, by simp [hcid]⟩
            rw [heq] at this
            have hcc : c' = c := by simpa using this
            rw [hcc]
            exact fun hp => hpc hp
          rw [List.filter_cons_of_neg (by simp [hany])]
          have hpcf : p c = false := by
            cases hp : p c
            · rfl
            · exact absurd hp hpc
          simp [hpcf, sqlSumCoalesce]

/-- C5: both usage queries return a mapping over exactly the four consumption
keys, each component equal to the componentwise sum over the ClusterHost rows
of the region's clusters (the per-user variant additionally filtered to
clusters owned by that user, null cells contributing zero), and when no such
rows exist every component is 0, never null. -/
theorem c5_region_quota_usage (db : Database) (r : Region) (uid : String)
    (hnd : (db.clusters.map (fun c => c.id)).Nodup) :
    Region.get_user_quota_usage db r uid =
      [("num_vcpus", claimFieldSum (claimRegionHostsUser db r uid) (fun h => h.num_vcpus)),
       ("ram_mb", claimFieldSum (claimRegionHostsUser db r uid) (fun h => h.ram_mb)),
       ("num_volumes", claimFieldSum (claimRegionHostsUser db r uid) (fun h => h.num_volumes)),
       ("volumes_gb", claimFieldSum (claimRegionHostsUser db r uid) (fun h => h.volumes_gb))] ∧
    Region.get_total_quota_usage db r =
      [("num_vcpus", claimFieldSum (claimRegionHostsAll db r) (fun h => h.num_vcpus)),
       ("ram_mb", claimFieldSum (claimRegionHostsAll db r) (fun h => h.ram_mb)),
       ("num_volumes", claimFieldSum (claimRegionHostsAll db r) (fun h => h.num_volumes)),
       ("volumes_gb", claimFieldSum (claimRegionHostsAll db r) (fun h => h.volumes_gb))] ∧
    (claimRegionHostsUser db r uid = [] →
      Region.get_user_quota_usage db r uid =
        [("num_vcpus", 0), ("ram_mb", 0), ("num_volumes", 0), ("volumes_gb", 0)]) ∧
    (claimRegionHostsAll db r = [] →
      Region.get_total_quota_usage db r =
        [("num_vcpus", 0), ("ram_mb", 0), ("num_volumes", 0), ("volumes_gb", 0)]) := by
  have huser : Region.get_user_quota_usage db r uid =
      [("num_vcpus", claimFieldSum (claimRegionHostsUser db r uid) (fun h => h.num_vcpus)),
       ("ram_mb", claimFieldSum (claimRegionHostsUser db r uid) (fun h => h.ram_mb)),
       ("num_volumes", claimFieldSum (claimRegionHostsUser db r uid) (fun h => h.num_volumes)),
       ("volumes_gb", claimFieldSum (claimRegionHostsUser db r uid) (fun h => h.volumes_gb))] := by
    unfold Region.get_user_quota_usage
    rw [join_filter_sum db (fun c => c.region_id == r.id && c.user_id == uid)
        (fun h => h.num_vcpus) hnd,
      join_filter_sum db (fun c => c.region_id == r.id && c.user_id == uid)
        (fun h => h.ram_mb) hnd,
      join_filter_sum db (fun c => c.region_id == r.id && c.user_id == uid)
        (fun h => h.num_volumes) hnd,
      join_filter_sum db (fun c => c.region_id == r.id && c.user_id == uid)
        (fun h => h.volumes_gb) hnd]
    unfold claimRegionHostsUser
    rfl
  have htotal : Region.get_total_quota_usage db r =
      [("num_vcpus", claimFieldSum (claimRegionHostsAll db r) (fun h => h.num_vcpus)),
       ("ram_mb", claimFieldSum (claimRegionHostsAll db r) (fun h => h.ram_mb)),
       ("num_volumes", claimFieldSum (claimRegionHostsAll db r) (fun h => h.num_volumes)),
       ("volumes_gb", claimFieldSum (claimRegionHostsAll db r) (fun h => h.volumes_gb))] := by
    unfold Region.get_total_quota_usage
    rw [join_filter_sum db (fun c => c.region_id == r.id) (fun h => h.num_vcpus) hnd,
      join_filter_sum db (fun c => c.region_id == r.id) (fun h => h.ram_mb) hnd,
      join_filter_sum db (fun c => c.region_id == r.id) (fun h => h.num_volumes) hnd,
      join_filter_sum db (fun c => c.region_id == r.id) (fun h => h.volumes_gb) hnd]
    unfold claimRegionHostsAll
    rfl
  refine ⟨huser, htotal, fun hempty => ?_, fun hempty => ?_⟩
  · rw [huser, hempty]
    rfl
  · rw [htotal, hempty]
    rfl

theorem c5_witness :
    Region.get_user_quota_usage
        (Database.mk [({ id := 1, name := "rdu" } : Region)] [] []) (({ id := 1, name := "rdu" } : Region)) "user1" =
      [("num_vcpus", claimFieldSum (claimRegionHostsUser
          (Database.mk [({ id := 1, name := "rdu" } : Region)] [] []) (({ id := 1, name := "rdu" } : Region)) "user1")
          (fun h => h.num_vcpus)),
       ("ram_mb", claimFieldSum (claimRegionHostsUser
          (Database.mk [({ id := 1, name := "rdu" } : Region)] [] []) (({ id := 1, name := "rdu" } : Region)) "user1")
          (fun h => h.ram_mb)),
       ("num_volumes", claimFieldSum (claimRegionHostsUser
          (Database.mk [({ id := 1, name := "rdu" } : Region)] [] []) (({ id := 1, name := "rdu" } : Region)) "user1")
          (fun h => h.num_volumes)),
       ("volumes_gb", claimFieldSum (claimRegionHostsUser
          (Database.mk [({ id := 1, name := "rdu" } : Region)] [] []) (({ id := 1, name := "rdu" } : Region)) "user1")
          (fun h => h.volumes_gb))] ∧
    Region.get_total_quota_usage
        (Database.mk [({ id := 1, name := "rdu" } : Region)] [] []) (({ id := 1, name := "rdu" } : Region)) =
      [("num_vcpus", claimFieldSum (claimRegionHostsAll
          (Database.mk [({ id := 1, name := "rdu" } : Region)] [] []) (({ id := 1, name := "rdu" } : Region)))
          (fun h => h.num_vcpus)),
       ("ram_mb", claimFieldSum (claimRegionHostsAll
          (Database.mk [({ id := 1, name := "rdu" } : Region)] [] []) (({ id := 1, name := "rdu" } : Region)))
          (fun h => h.ram_mb)),
       ("num_volumes", claimFieldSum (claimRegionHostsAll
          (Database.mk [({ id := 1, name := "rdu" } : Region)] [] []) (({ id := 1, name := "rdu" } : Region)))
          (fun h => h.num_volumes)),
       ("volumes_gb", claimFieldSum (claimRegionHostsAll
          (Database.mk [({ id := 1, name := "rdu" } : Region)] [] []) (({ id := 1, name := "rdu" } : Region)))
          (fun h => h.volumes_gb))] ∧
    (claimRegionHostsUser (Database.mk [({ id := 1, name := "rdu" } : Region)] [] []) (({ id := 1, name := "rdu" } : Region))
        "user1" = [] →
      Region.get_user_quota_usage (Database.mk [({ id := 1, name := "rdu" } : Region)] [] [])
          (({ id := 1, name := "rdu" } : Region)) "user1" =
        [("num_vcpus", 0), ("ram_mb", 0), ("num_volumes", 0), ("volumes_gb", 0)]) ∧
    (claimRegionHostsAll (Database.mk [({ id := 1, name := "rdu" } : Region)] [] [])
        (({ id := 1, name := "rdu" } : Region)) = [] →
      Region.get_total_quota_usage (Database.mk [({ id := 1, name := "rdu" } : Region)] [] [])
          (({ id := 1, name := "rdu" } : Region)) =
        [("num_vcpus", 0), ("ram_mb", 0), ("num_volumes", 0), ("volumes_gb", 0)]) :=
  c5_region_quota_usage (Database.mk [({ id := 1, name := "rdu" } : Region)] [] [])
    (({ id := 1, name := "rdu" } : Region)) "user1" (by decide)

/-- Python `acc + getattr(host, k)`: adding a NULL column raises `TypeError`
(`None` does not support `+`). -/
def addOpt (acc : Int) (v : Option Int) : Except String Int :=
  match v with
  | some n => Except.ok (acc + n)
  | none => Except.error "TypeError"

/-- One iteration of the `for host in self.hosts` loop of
`Cluster.quota_usage`: the four keys are accumulated in dict insertion order,
and the first NULL column raises. -/
def quotaUsageStep (acc : Int × Int × Int × Int) (h : ClusterHost) :
    Except String (Int × Int × Int × Int) := do
  let a ← addOpt acc.1 h.num_vcpus
  let b ← addOpt acc.2.1 h.ram_mb
  let c ← addOpt acc.2.2.1 h.num_volumes
  let d ← addOpt acc.2.2.2 h.volumes_gb
  pure (a, b, c, d)

/-- `Cluster.quota_usage` (`lab/model.py`): in-memory summation over the
cluster's `hosts` relationship, starting from zeros, adding the raw column
values without coalescing. -/
def Cluster.quota_usage (hosts : List ClusterHost) :
    Except String (List (String × Int)) :=
  match hosts.foldlM quotaUsageStep (0, 0, 0, 0) with
  | Except.ok r => Except.ok
      [("num_vcpus", r.1), ("ram_mb", r.2.1),
       ("num_volumes", r.2.2.1), ("volumes_gb", r.2.2.2)]
  | Except.error e => Except.error e

/-- All four consumption columns of a host are non-null. -/
def hostFieldsComplete (h : ClusterHost) : Prop :=
  h.num_vcpus.isSome = true ∧ h.ram_mb.isSome = true ∧
    h.num_volumes.isSome = true ∧ h.volumes_gb.isSome = true

instance (h : ClusterHost) : Decidable (hostFieldsComplete h) := by
  unfold hostFieldsComplete
  infer_instance

theorem quotaUsageStep_complete (acc : Int × Int × Int × Int) (h : ClusterHost)
    (hc : hostFieldsComplete h) :
    quotaUsageStep acc h = Except.ok
      (acc.1 + h.num_vcpus.getD 0, acc.2.1 + h.ram_mb.getD 0,
       acc.2.2.1 + h.num_volumes.getD 0, acc.2.2.2 + h.volumes_gb.getD 0) := by
  obtain ⟨h1, h2, h3, h4⟩ := hc
  cases hv1 : h.num_vcpus with
  | none => rw [hv1] at h1; cases h1
  | some a =>
      cases hv2 : h.ram_mb with
      | none => rw [hv2] at h2; cases h2
      | some b =>
          cases hv3 : h.num_volumes with
          | none => rw [hv3] at h3; cases h3
          | some c =>
              cases hv4 : h.volumes_gb with
              | none => rw [hv4] at h4; cases h4
              | some d =>
                  simp [quotaUsageStep, addOpt, hv1, hv2, hv3, hv4, Bind.bind,
                    Except.bind, Functor.map, Except.map, Pure.pure, Except.pure]

theorem quotaUsageStep_incomplete (acc : Int × Int × Int × Int)
    (h : ClusterHost) (hc : ¬ hostFieldsComplete h) :
    quotaUsageStep acc h = Except.error "TypeError" := by
  cases hv1 : h.num_vcpus with
  | none => simp [quotaUsageStep, addOpt, hv1, Bind.bind, Except.bind,
      Functor.map, Except.map]
  | some a =>
      cases hv2 : h.ram_mb with
      | none => simp [quotaUsageStep, addOpt, hv1, hv2, Bind.bind, Except.bind,
          Functor.map, Except.map]
      | some b =>
          cases hv3 : h.num_volumes with
          | none => simp [quotaUsageStep, addOpt, hv1, hv2, hv3, Bind.bind,
              Except.bind, Functor.map, Except.map]
          | some c =>
              cases hv4 : h.volumes_gb with
              | none => simp [quotaUsageStep, addOpt, hv1, hv2, hv3, hv4,
                  Bind.bind, Except.bind, Functor.map, Except.map]
              | some d =>
                  exact absurd ⟨by simp [hv1], by simp [hv2], by simp [hv3],
                    by simp [hv4]⟩ hc

theorem quota_foldlM_complete (hosts : List ClusterHost)
    (acc : Int × Int × Int × Int)
    (hall : ∀ h ∈ hosts, hostFieldsComplete h) :
    hosts.foldlM quotaUsageStep acc = Except.ok
      (acc.1 + claimFieldSum hosts (fun h => h.num_vcpus),
       acc.2.1 + claimFieldSum hosts (fun h => h.ram_mb),
       acc.2.2.1 + claimFieldSum hosts (fun h => h.num_volumes),
       acc.2.2.2 + claimFieldSum hosts (fun h => h.volumes_gb)) := by
  induction hosts generalizing acc with
  | nil => simp [claimFieldSum, Pure.pure, Except.pure]
  | cons hd tl ih =>
      rw [List.foldlM_cons,
        quotaUsageStep_complete acc hd (hall hd (List.mem_cons_self hd tl))]
      have hbind : ∀ (x : Int × Int × Int × Int)
          (f : Int × Int × Int × Int → Except String (Int × Int × Int × Int)),
          (Except.ok x >>= f) = f x := fun _ _ => rfl
      rw [hbind]
      rw [ih _ (fun h hm => hall h (List.mem_cons_of_mem hd hm))]
      unfold claimFieldSum
      simp [add_assoc]

theorem quota_foldlM_incomplete (hosts : List ClusterHost)
    (acc : Int × Int × Int × Int)
    (hbad : ∃ h ∈ hosts, ¬ hostFieldsComplete h) :
    hosts.foldlM quotaUsageStep acc = Except.error "TypeError" := by
  induction hosts generalizing acc with
  | nil =>
      obtain ⟨h, hm, _⟩ := hbad
      cases hm
  | cons hd tl ih =>
      by_cases hc : hostFieldsComplete hd
      · rw [List.foldlM_cons, quotaUsageStep_complete acc hd hc]
        have hbind : ∀ (x : Int × Int × Int × Int)
            (f : Int × Int × Int × Int → Except String (Int × Int × Int × Int)),
            (Except.ok x >>= f) = f x := fun _ _ => rfl
        rw [hbind]
        obtain ⟨h, hm, hh⟩ := hbad
        rcases List.mem_cons.mp hm with heq | htl
        · exact absurd hc (heq ▸ hh)
        · exact ih _ ⟨h, htl, hh⟩
      · rw [List.foldlM_cons, quotaUsageStep_incomplete acc hd hc]
        rfl

/-- C10: `Cluster.quota_usage` succeeds exactly when every host of the cluster
has all four consumption columns non-null (a single null column makes the
property raise `TypeError`, unlike the coalescing SQL aggregation of the
Region queries); on success it returns the componentwise sums over the four
keys, and for a cluster with no hosts it returns all zeros. -/
theorem c10_cluster_quota_usage (hosts : List ClusterHost) :
    ((∃ m, Cluster.quota_usage hosts = Except.ok m) ↔
      ∀ h ∈ hosts, hostFieldsComplete h) ∧
    (∀ m, Cluster.quota_usage hosts = Except.ok m →
      m = [("num_vcpus", claimFieldSum hosts (fun h => h.num_vcpus)),
           ("ram_mb", claimFieldSum hosts (fun h => h.ram_mb)),
           ("num_volumes", claimFieldSum hosts (fun h => h.num_volumes)),
           ("volumes_gb", claimFieldSum hosts (fun h => h.volumes_gb))]) ∧
    Cluster.quota_usage [] = Except.ok
      [("num_vcpus", 0), ("ram_mb", 0), ("num_volumes", 0), ("volumes_gb", 0)] := by
  by_cases hall : ∀ h ∈ hosts, hostFieldsComplete h
  · have hfold := quota_foldlM_complete hosts (0, 0, 0, 0) hall
    have hquota : Cluster.quota_usage hosts = Except.ok
        [("num_vcpus", claimFieldSum hosts (fun h => h.num_vcpus)),
         ("ram_mb", claimFieldSum hosts (fun h => h.ram_mb)),
         ("num_volumes", claimFieldSum hosts (fun h => h.num_volumes)),
         ("volumes_gb", claimFieldSum hosts (fun h => h.volumes_gb))] := by
      unfold Cluster.quota_usage
      rw [hfold]
      simp [zero_add]
    refine ⟨⟨fun _ => hall, fun _ => ⟨_, hquota⟩⟩, fun m hm => ?_, rfl⟩
    rw [hquota] at hm
    injection hm with hm
    exact hm.symm
  · have hbad : ∃ h ∈ hosts, ¬ hostFieldsComplete h := by
      push_neg at hall
      exact hall
    have hfold := quota_foldlM_incomplete hosts (0, 0, 0, 0) hbad
    refine ⟨⟨fun hex => ?_, fun h => absurd h hall⟩, fun m hm => ?_, rfl⟩
    · obtain ⟨m, hm⟩ := hex
      unfold Cluster.quota_usage at hm
      rw [hfold] at hm
      cases hm
    · unfold Cluster.quota_usage at hm
      rw [hfold] at hm
      cases hm

theorem c10_witness :
    ((∃ m, Cluster.quota_usage
        [ClusterHost.mk 1 1 "host0" (some 2) (some 4096) (some 1) (some 20)] =
          Except.ok m) ↔
      ∀ h ∈ [ClusterHost.mk 1 1 "host0" (some 2) (some 4096) (some 1) (some 20)],
        hostFieldsComplete h) ∧
    (∀ m, Cluster.quota_usage
        [ClusterHost.mk 1 1 "host0" (some 2) (some 4096) (some 1) (some 20)] =
          Except.ok m →
      m = [("num_vcpus", claimFieldSum
              [ClusterHost.mk 1 1 "host0" (some 2) (some 4096) (some 1) (some 20)]
              (fun h => h.num_vcpus)),
           ("ram_mb", claimFieldSum
              [ClusterHost.mk 1 1 "host0" (some 2) (some 4096) (some 1) (some 20)]
              (fun h => h.ram_mb)),
           ("num_volumes", claimFieldSum
              [ClusterHost.mk 1 1 "host0" (some 2) (some 4096) (some 1) (some 20)]
              (fun h => h.num_volumes)),
           ("volumes_gb", claimFieldSum
              [ClusterHost.mk 1 1 "host0" (some 2) (some 4096) (some 1) (some 20)]
              (fun h => h.volumes_gb))]) ∧
    Cluster.quota_usage [] = Except.ok
      [("num_vcpus", 0), ("ram_mb", 0), ("num_volumes", 0), ("volumes_gb", 0)] :=
  c10_cluster_quota_usage
    [ClusterHost.mk 1 1 "host0" (some 2) (some 4096) (some 1) (some 20)]

/-- Modelled from the spec: the reservation-renewal operation applied by the
cluster API layer, which is not among the sources here (only the columns
`Cluster.reservation_expiration` and `Cluster.lifespan_expiration` are, in
`lab/model.py`). The spec makes lifespan "a hard, non-renewable expiration
ceiling" and reservation "a renewable soft limit that must never exceed
lifespan", so a renewal request is capped at the cluster's lifespan
expiration whenever one is set, and lifespan itself is not renewable. -/
def Cluster.update_reservation (c : Cluster) (t : Option Int) : Cluster :=
  match t, c.lifespan_expiration with
  | some t', some cap => { c with reservation_expiration := some (min t' cap) }
  | _, _ => { c with reservation_expiration := t }

/-- A sequence of reservation renewals applied in order. -/
def Cluster.apply_reservation_updates (c : Cluster) (ts : List (Option Int)) :
    Cluster :=
  ts.foldl Cluster.update_reservation c

/-- C8: for a cluster whose lifespan expiration is set and whose current
reservation does not exceed it, after any sequence of reservation updates the
reservation expiration never exceeds the lifespan expiration, and the
lifespan itself is unchanged (renewals are capped at the lifespan ceiling). -/
theorem c8_reservation_capped_at_lifespan (c : Cluster) (L : Int)
    (hl : c.lifespan_expiration = some L)
    (hres : ∀ r, c.reservation_expiration = some r → r ≤ L)
    (ts : List (Option Int)) :
    (Cluster.apply_reservation_updates c ts).lifespan_expiration = some L ∧
    (∀ r, (Cluster.apply_reservation_updates c ts).reservation_expiration =
        some r → r ≤ L) := by
  induction ts generalizing c with
  | nil => exact ⟨hl, hres⟩
  | cons t rest ih =>
      unfold Cluster.apply_reservation_updates
      rw [List.foldl_cons]
      have hstep_l : (Cluster.update_reservation c t).lifespan_expiration = some L := by
        unfold Cluster.update_reservation
        cases t with
        | none => simpa using hl
        | some t' => rw [hl]
      have hstep_r : ∀ r,
          (Cluster.update_reservation c t).reservation_expiration = some r →
            r ≤ L := by
        intro r hr
        unfold Cluster.update_reservation at hr
        cases t with
        | none => simp at hr
        | some t' =>
            rw [hl] at hr
            simp only [Option.some.injEq] at hr
            rw [← hr]
            exact min_le_right t' L
      exact ih (Cluster.update_reservation c t) hstep_l hstep_r

theorem c8_witness :
    (Cluster.apply_reservation_updates
        (Cluster.mk 5 "mycluster" "user1" 1 (some 40) (some 100))
        [some 150, none, some 120]).lifespan_expiration = some 100 ∧
    (∀ r, (Cluster.apply_reservation_updates
        (Cluster.mk 5 "mycluster" "user1" 1 (some 40) (some 100))
        [some 150, none, some 120]).reservation_expiration = some r →
      r ≤ 100) :=
  c8_reservation_capped_at_lifespan
    (Cluster.mk 5 "mycluster" "user1" 1 (some 40) (some 100)) 100 rfl
    (fun r hr => by
      simp only [Option.some.injEq] at hr
      omega)
    [some 150, none, some 120]

/-- Python truthiness of the JSON value stored under a quota key: JSON null
(`None`) and the empty mapping are falsy, a non-empty mapping is truthy. -/
def truthyQuota (d : Option (List (String × Option Int))) : Bool :=
  match d with
  | none => false
  | some kvs => !kvs.isEmpty

/-- The update payload of `Region.update_from_dict`, restricted to the two
specially-handled quota keys: the outer `Option` is key presence in the
payload, the inner value is JSON null or a mapping. -/
structure RegionUpdateData where
  user_quota : Option (Option (List (String × Option Int))) := none
  total_quota : Option (Option (List (String × Option Int))) := none
  deriving Repr

/-- One quota key of the `for k in ['user_quota', 'total_quota']` loop of
`Region.update_from_dict`: a truthy mapping replaces a null quota
(`Quota.from_dict`) but hits the two-argument `setattr(self, k)` call — a
`TypeError` — when the quota is already non-null; a falsy value (null or the
empty mapping) clears the quota; an absent key leaves it. -/
def updateQuotaField (cur : Option (List (String × Option Int)))
    (d : Option (Option (List (String × Option Int)))) :
    Except String (Option (List (String × Option Int))) :=
  match d with
  | none => Except.ok cur
  | some dv =>
      if truthyQuota dv then
        match cur with
        | none => Except.ok dv
        | some _ => Except.error "TypeError: setattr expected 3 arguments, got 2"
      else Except.ok none

/-- `Region.update_from_dict` (`lab/model.py`), restricted to the quota keys
(the credential-prefix expansion and the generic `setattr` loop of
`ModelMixin.update_from_dict` cannot fail and do not touch the quotas).
`user_quota` is processed before `total_quota`. -/
def Region.update_from_dict (r : Region) (d : RegionUpdateData) :
    Except String Region :=
  match updateQuotaField r.user_quota d.user_quota with
  | Except.error e => Except.error e
  | Except.ok uq =>
      match updateQuotaField r.total_quota d.total_quota with
      | Except.error e => Except.error e
      | Except.ok tq => Except.ok { r with user_quota := uq, total_quota := tq }

/-- C9 counterexample: the claim says any input holding a non-null mapping for
an already non-null quota key makes `update_from_dict` raise, but the empty
mapping is a non-null mapping and is falsy in Python, so the update completes
and clears the quota to null instead of raising. -/
theorem c9_counterexample :
    Region.update_from_dict
      { id := 1, name := "rdu", user_quota := some [("num_vcpus", some 4)] }
      { user_quota := some (some []) } =
    Except.ok { id := 1, name := "rdu", user_quota := none } := rfl

/-- C9 (amended): `Region.update_from_dict` raises (the two-argument `setattr`
`TypeError`) exactly when some quota key carries a non-null, NON-EMPTY mapping
while that quota is already non-null; a null or empty-mapping value clears the
quota, a non-empty mapping replaces a null quota, and an absent key leaves the
quota unchanged — so updating an existing quota in place never completes on
this path. -/
theorem c9_update_from_dict_quota (r : Region) (d : RegionUpdateData) :
    ((∃ e, Region.update_from_dict r d = Except.error e) ↔
      ((truthyQuota (d.user_quota.getD none) = true ∧ r.user_quota ≠ none) ∨
       (truthyQuota (d.total_quota.getD none) = true ∧ r.total_quota ≠ none))) ∧
    (∀ r', Region.update_from_dict r d = Except.ok r' →
      r'.user_quota = (match d.user_quota with
        | none => r.user_quota
        | some dv => if truthyQuota dv then dv else none) ∧
      r'.total_quota = (match d.total_quota with
        | none => r.total_quota
        | some dv => if truthyQuota dv then dv else none) ∧
      r'.id = r.id ∧ r'.name = r.name) := by
  have hfield : ∀ (cur : Option (List (String × Option Int)))
      (dd : Option (Option (List (String × Option Int)))),
      (truthyQuota (dd.getD none) = true ∧ cur ≠ none →
        updateQuotaField cur dd =
          Except.error "TypeError: setattr expected 3 arguments, got 2") ∧
      (¬ (truthyQuota (dd.getD none) = true ∧ cur ≠ none) →
        updateQuotaField cur dd = Except.ok (match dd with
          | none => cur
          | some dv => if truthyQuota dv then dv else none)) := by
    intro cur dd
    constructor
    · rintro ⟨htr, hcur⟩
      cases dd with
      | none => simp [truthyQuota] at htr
      | some dv =>
          simp only [Option.getD] at htr
          cases cur with
          | none => exact absurd rfl hcur
          | some q => simp [updateQuotaField, htr]
    · intro hneg
      cases dd with
      | none => rfl
      | some dv =>
          simp only [Option.getD] at hneg
          by_cases htr : truthyQuota dv = true
          · cases cur with
            | none => simp [updateQuotaField, htr]
            | some q => exact absurd ⟨htr, by simp⟩ hneg
          · have htr' : truthyQuota dv = false := by
              cases hv : truthyQuota dv
              · rfl
              · exact absurd hv htr
            simp [updateQuotaField, htr']
  constructor
  · constructor
    · rintro ⟨e, he⟩
      by_cases hu : truthyQuota (d.user_quota.getD none) = true ∧ r.user_quota ≠ none
      · exact Or.inl hu
      · by_cases ht : truthyQuota (d.total_quota.getD none) = true ∧ r.total_quota ≠ none
        · exact Or.inr ht
        · exfalso
          unfold Region.update_from_dict at he
          rw [(hfield r.user_quota d.user_quota).2 hu,
            (hfield r.total_quota d.total_quota).2 ht] at he
          cases he
    · intro hor
      unfold Region.update_from_dict
      rcases hor with hu | ht
      · rw [(hfield r.user_quota d.user_quota).1 hu]
        exact ⟨_, rfl⟩
      · by_cases hu : truthyQuota (d.user_quota.getD none) = true ∧ r.user_quota ≠ none
        · rw [(hfield r.user_quota d.user_quota).1 hu]
          exact ⟨_, rfl⟩
        · rw [(hfield r.user_quota d.user_quota).2 hu,
            (hfield r.total_quota d.total_quota).1 ht]
          exact ⟨_, rfl⟩
  · intro r' hr'
    unfold Region.update_from_dict at hr'
    by_cases hu : truthyQuota (d.user_quota.getD none) = true ∧ r.user_quota ≠ none
    · rw [(hfield r.user_quota d.user_quota).1 hu] at hr'
      cases hr'
    · rw [(hfield r.user_quota d.user_quota).2 hu] at hr'
      by_cases ht : truthyQuota (d.total_quota.getD none) = true ∧ r.total_quota ≠ none
      · rw [(hfield r.total_quota d.total_quota).1 ht] at hr'
        cases hr'
      · rw [(hfield r.total_quota d.total_quota).2 ht] at hr'
        injection hr' with hr'
        rw [← hr']
        exact ⟨rfl, rfl, rfl, rfl⟩

theorem c9_witness :
    ((∃ e, Region.update_from_dict
        { id := 2, name := "rdu2", user_quota := some [("num_vcpus", some 4)] }
        { user_quota := some (some [("num_vcpus", some 8)]) } = Except.error e) ↔
      ((truthyQuota ((some (some [("num_vcpus", some 8)]) :
            Option (Option (List (String × Option Int)))).getD none) = true ∧
          (some [("num_vcpus", some 4)] :
            Option (List (String × Option Int))) ≠ none) ∨
       (truthyQuota ((none :
            Option (Option (List (String × Option Int)))).getD none) = true ∧
          (none : Option (List (String × Option Int))) ≠ none))) ∧
    (∀ r', Region.update_from_dict
        { id := 2, name := "rdu2", user_quota := some [("num_vcpus", some 4)] }
        { user_quota := some (some [("num_vcpus", some 8)]) } = Except.ok r' →
      r'.user_quota = (match (some (some [("num_vcpus", some 8)]) :
          Option (Option (List (String × Option Int)))) with
        | none => (some [("num_vcpus", some 4)] :
            Option (List (String × Option Int)))
        | some dv => if truthyQuota dv then dv else none) ∧
      r'.total_quota = (match (none :
          Option (Option (List (String × Option Int)))) with
        | none => (none : Option (List (String × Option Int)))
        | some dv => if truthyQuota dv then dv else none) ∧
      r'.id = 2 ∧ r'.name = "rdu2") :=
  c9_update_from_dict_quota
    { id := 2, name := "rdu2", user_quota := some [("num_vcpus", some 4)] }
    { user_quota := some (some [("num_vcpus", some 8)]) }

/-- `VAULT_PATH_PREFIX` of `api/lab/region.py` (renamed here). -/
def vaultPathRoot : String := "kv/lab/region"

/-- A credential field value as submitted: either a raw secret (a JSON
mapping) or an already-resolved vault path (a string). -/
inductive CredInput where
  | secret (kv : List (String × String))
  | path (p : String)
  deriving DecidableEq, Repr

/-- The three credential-bearing inputs of a region body. -/
structure RegionCredBody where
  openstack_credentials : CredInput
  satellite_credentials : CredInput
  dns_server_key : CredInput
  deriving DecidableEq, Repr

/-- One credential field of `create_region`: a non-string value is written to
the vault at `VAULT_PATH_PREFIX/(region name)/(field)` and replaced by that
path; a string is stored as-is with no vault write. Returns the stored field
value and the vault writes performed. -/
def resolveCredCreate (region_name field : String) (v : CredInput) :
    String × List (String × List (String × String)) :=
  match v with
  | CredInput.path s => (s, [])
  | CredInput.secret kv =>
      (vaultPathRoot ++ "/" ++ region_name ++ "/" ++ field,
       [(vaultPathRoot ++ "/" ++ region_name ++ "/" ++ field, kv)])

/-- The credential-resolution part of `create_region`: the three fields in
source order, with the vault writes they perform. -/
def create_region_creds (region_name : String) (b : RegionCredBody) :
    Region × List (String × List (String × String)) :=
  ({ id := 0, name := region_name,
     openstack_credentials :=
       (resolveCredCreate region_name "openstack" b.openstack_credentials).1,
     satellite_credentials :=
       (resolveCredCreate region_name "satellite" b.satellite_credentials).1,
     dns_server_key :=
       (resolveCredCreate region_name "dns_server" b.dns_server_key).1 },
   (resolveCredCreate region_name "openstack" b.openstack_credentials).2 ++
     (resolveCredCreate region_name "satellite" b.satellite_credentials).2 ++
     (resolveCredCreate region_name "dns_server" b.dns_server_key).2)

/-- One credential field of `update_region`: `dpath.get` defaults to the
currently stored path (a string). A non-string value is written to the vault
at the CURRENTLY STORED path and deleted from the body, leaving the field
unchanged; a string value replaces the field with no vault write. -/
def resolveCredUpdate (cur : String) (v : Option CredInput) :
    String × List (String × List (String × String)) :=
  match v with
  | none => (cur, [])
  | some (CredInput.path s) => (s, [])
  | some (CredInput.secret kv) => (cur, [(cur, kv)])

/-- The credential-resolution part of `update_region`, the three fields in
source order. -/
def update_region_creds (r : Region)
    (o s d : Option CredInput) :
    Region × List (String × List (String × String)) :=
  ({ r with
     openstack_credentials := (resolveCredUpdate r.openstack_credentials o).1,
     satellite_credentials := (resolveCredUpdate r.satellite_credentials s).1,
     dns_server_key := (resolveCredUpdate r.dns_server_key d).1 },
   (resolveCredUpdate r.openstack_credentials o).2 ++
     (resolveCredUpdate r.satellite_credentials s).2 ++
     (resolveCredUpdate r.dns_server_key d).2)

/-- C6 counterexample: the claim says a raw secret is always written at the
deterministic path `(prefix)/(region name)/(field)`, but `update_region`
writes a raw secret at the region's currently stored path, which need not be
the deterministic one: for a region storing `custom/openstack/path` the write
goes there, not to `kv/lab/region/myregion/openstack`. -/
theorem c6_counterexample :
    (update_region_creds
        { id := 3, name := "myregion",
          openstack_credentials := "custom/openstack/path",
          satellite_credentials := "kv/lab/region/myregion/satellite",
          dns_server_key := "kv/lab/region/myregion/dns_server" }
        (some (CredInput.secret [("username", "u"), ("password", "p")]))
        none none).2 =
      [("custom/openstack/path", [("username", "u"), ("password", "p")])] ∧
    "custom/openstack/path" ≠ vaultPathRoot ++ "/" ++ "myregion" ++ "/" ++ "openstack" := by
  constructor
  · rfl
  · decide

/-- C6 (amended): in `create_region` a raw secret is written exactly once at
the deterministic path `(prefix)/(region name)/(field)` and the persisted
field holds that path, while a string input causes no vault write and is
stored as-is; in `update_region` a raw secret is written once at the region's
currently stored path with the field left unchanged, and a string input (or
an absent key) causes no vault write; consequently, creating a region with
the three raw secrets and then re-submitting the three returned paths
performs exactly three vault writes in total (one per field) and leaves the
region unchanged. -/
theorem c6_credential_indirection (region_name field cur : String)
    (kv : List (String × String)) (s : String)
    (kv1 kv2 kv3 : List (String × String)) :
    resolveCredCreate region_name field (CredInput.secret kv) =
      (vaultPathRoot ++ "/" ++ region_name ++ "/" ++ field,
       [(vaultPathRoot ++ "/" ++ region_name ++ "/" ++ field, kv)]) ∧
    resolveCredCreate region_name field (CredInput.path s) = (s, []) ∧
    resolveCredUpdate cur (some (CredInput.secret kv)) = (cur, [(cur, kv)]) ∧
    resolveCredUpdate cur (some (CredInput.path s)) = (s, []) ∧
    resolveCredUpdate cur none = (cur, []) ∧
    ((create_region_creds region_name
        (RegionCredBody.mk (CredInput.secret kv1) (CredInput.secret kv2)
          (CredInput.secret kv3))).2.length = 3 ∧
      (update_region_creds
        (create_region_creds region_name
          (RegionCredBody.mk (CredInput.secret kv1) (CredInput.secret kv2)
            (CredInput.secret kv3))).1
        (some (CredInput.path ((create_region_creds region_name
          (RegionCredBody.mk (CredInput.secret kv1) (CredInput.secret kv2)
            (CredInput.secret kv3))).1.openstack_credentials)))
        (some (CredInput.path ((create_region_creds region_name
          (RegionCredBody.mk (CredInput.secret kv1) (CredInput.secret kv2)
            (CredInput.secret kv3))).1.satellite_credentials)))
        (some (CredInput.path ((create_region_creds region_name
          (RegionCredBody.mk (CredInput.secret kv1) (CredInput.secret kv2)
            (CredInput.secret kv3))).1.dns_server_key))) =
       ((create_region_creds region_name
          (RegionCredBody.mk (CredInput.secret kv1) (CredInput.secret kv2)
            (CredInput.secret kv3))).1, []))) := by
  refine ⟨rfl, rfl, rfl, rfl, rfl, rfl, ?_⟩
  rfl

theorem c6_witness :
    resolveCredCreate "myregion" "openstack" (CredInput.secret [("username", "u")]) =
      (vaultPathRoot ++ "/" ++ "myregion" ++ "/" ++ "openstack",
       [(vaultPathRoot ++ "/" ++ "myregion" ++ "/" ++ "openstack", [("username", "u")])]) ∧
    resolveCredCreate "myregion" "openstack" (CredInput.path "a/b") = ("a/b", []) ∧
    resolveCredUpdate "p0" (some (CredInput.secret [("username", "u")])) =
      ("p0", [("p0", [("username", "u")])]) ∧
    resolveCredUpdate "p0" (some (CredInput.path "a/b")) = ("a/b", []) ∧
    resolveCredUpdate "p0" none = ("p0", []) ∧
    ((create_region_creds "myregion"
        (RegionCredBody.mk (CredInput.secret [("username", "u")])
          (CredInput.secret [("password", "q")])
          (CredInput.secret [("key", "k")]))).2.length = 3 ∧
      (update_region_creds
        (create_region_creds "myregion"
          (RegionCredBody.mk (CredInput.secret [("username", "u")])
            (CredInput.secret [("password", "q")])
            (CredInput.secret [("key", "k")]))).1
        (some (CredInput.path ((create_region_creds "myregion"
          (RegionCredBody.mk (CredInput.secret [("username", "u")])
            (CredInput.secret [("password", "q")])
            (CredInput.secret [("key", "k")]))).1.openstack_credentials)))
        (some (CredInput.path ((create_region_creds "myregion"
          (RegionCredBody.mk (CredInput.secret [("username", "u")])
            (CredInput.secret [("password", "q")])
            (CredInput.secret [("key", "k")]))).1.satellite_credentials)))
        (some (CredInput.path ((create_region_creds "myregion"
          (RegionCredBody.mk (CredInput.secret [("username", "u")])
            (CredInput.secret [("password", "q")])
            (CredInput.secret [("key", "k")]))).1.dns_server_key))) =
       ((create_region_creds "myregion"
          (RegionCredBody.mk (CredInput.secret [("username", "u")])
            (CredInput.secret [("password", "q")])
            (CredInput.secret [("key", "k")]))).1, []))) :=
  c6_credential_indirection "myregion" "openstack" "p0" [("username", "u")] "a/b"
    [("username", "u")] [("password", "q")] [("key", "k")]

/-- An external side effect performed by `create_region`, in order. -/
inductive Effect where
  | groupCreate (name : String)
  | groupUserAdd (user gid : String)
  | groupGet (gid : String)
  | vaultWrite (path : String)
  | dbCommit
  | groupDelete (gid : String)
  deriving DecidableEq, Repr

/-- The outcome of `create_region`: an error `problem(...)` response returned
early, the re-raised commit exception, or success. -/
inductive CreateResult where
  | errorResponse
  | raised
  | success
  deriving DecidableEq, Repr

/-- The outcomes of the external collaborators during one `create_region`
call: whether the owners-group creation succeeds (and with which id), whether
adding the caller to it succeeds, whether the submitted `users_group` exists,
and whether the local database commit succeeds. Vault writes are taken to
succeed. -/
structure CreateWorld where
  group_create : Except Unit String
  user_add_ok : Bool
  users_group_exists : Bool
  commit_ok : Bool
  deriving Repr

/-- `create_region` (`api/lab/region.py`): owners-group creation and caller
membership (failures return an error response), optional `users_group`
existence check (failure returns an error response), credential resolution
with its vault writes, then `db.session.commit()`; a commit exception
triggers `group_delete(owners_id)` and is re-raised, a successful commit
returns the region. -/
def create_region (w : CreateWorld) (user region_name : String)
    (users_group : Option String) (b : RegionCredBody) :
    CreateResult × List Effect :=
  match w.group_create with
  | Except.error _ =>
      (CreateResult.errorResponse, [Effect.groupCreate (region_name ++ "-owners")])
  | Except.ok gid =>
      if w.user_add_ok = false then
        (CreateResult.errorResponse,
         [Effect.groupCreate (region_name ++ "-owners"),
          Effect.groupUserAdd user gid])
      else
        match users_group with
        | some g =>
            if w.users_group_exists = false then
              (CreateResult.errorResponse,
               [Effect.groupCreate (region_name ++ "-owners"),
                Effect.groupUserAdd user gid, Effect.groupGet g])
            else if w.commit_ok then
              (CreateResult.success,
               [Effect.groupCreate (region_name ++ "-owners"),
                Effect.groupUserAdd user gid, Effect.groupGet g] ++
                 (create_region_creds region_name b).2.map
                   (fun wr => Effect.vaultWrite wr.1) ++
                 [Effect.dbCommit])
            else
              (CreateResult.raised,
               [Effect.groupCreate (region_name ++ "-owners"),
                Effect.groupUserAdd user gid, Effect.groupGet g] ++
                 (create_region_creds region_name b).2.map
                   (fun wr => Effect.vaultWrite wr.1) ++
                 [Effect.dbCommit, Effect.groupDelete gid])
        | none =>
            if w.commit_ok then
              (CreateResult.success,
               [Effect.groupCreate (region_name ++ "-owners"),
                Effect.groupUserAdd user gid] ++
                 (create_region_creds region_name b).2.map
                   (fun wr => Effect.vaultWrite wr.1) ++
                 [Effect.dbCommit])
            else
              (CreateResult.raised,
               [Effect.groupCreate (region_name ++ "-owners"),
                Effect.groupUserAdd user gid] ++
                 (create_region_creds region_name b).2.map
                   (fun wr => Effect.vaultWrite wr.1) ++
                 [Effect.dbCommit, Effect.groupDelete gid])

/-- C7: whenever the owners group was created, (a) if the commit is reached
and fails, the run performs the compensating deletion of exactly that group
immediately after the commit attempt and re-raises the error; (b) if the
commit succeeds — and on every early-exit path — no group deletion occurs. -/
theorem c7_create_region_compensation (w : CreateWorld)
    (user region_name : String) (users_group : Option String)
    (b : RegionCredBody) (gid : String)
    (hgid : w.group_create = Except.ok gid) :
    (w.commit_ok = true →
      ∀ g, Effect.groupDelete g ∉ (create_region w user region_name users_group b).2) ∧
    (w.commit_ok = false →
      Effect.dbCommit ∈ (create_region w user region_name users_group b).2 →
      (create_region w user region_name users_group b).1 = CreateResult.raised ∧
      ∃ pre, (create_region w user region_name users_group b).2 =
        pre ++ [Effect.dbCommit, Effect.groupDelete gid]) := by
  unfold create_region
  rw [hgid]
  by_cases hadd : w.user_add_ok = false
  · simp only [hadd, if_true]
    constructor
    · intro _ g
      simp
    · intro _ hmem
      simp at hmem
  · have hadd' : w.user_add_ok = true := by
      cases hv : w.user_add_ok
      · exact absurd hv hadd
      · rfl
    simp only [hadd']
    cases users_group with
    | some g0 =>
        by_cases hug : w.users_group_exists = false
        · simp only [hug, if_true]
          constructor
          · intro _ g
            simp
          · intro _ hmem
            simp at hmem
        · have hug' : w.users_group_exists = true := by
            cases hv : w.users_group_exists
            · exact absurd hv hug
            · rfl
          simp only [hug']
          constructor
          · intro hcommit g
            simp only [hcommit, if_true]
            intro hmem
            rcases List.mem_append.mp hmem with hmem1 | hmem2
            · rcases List.mem_append.mp hmem1 with hmem3 | hmem4
              · simp at hmem3
              · rcases List.mem_map.mp hmem4 with ⟨x, _, hx⟩
                cases hx
            · simp at hmem2
          · intro hcommit _
            simp only [hcommit]
            constructor
            · simp
            · exact ⟨[Effect.groupCreate (region_name ++ "-owners"),
                Effect.groupUserAdd user gid, Effect.groupGet g0] ++
                  (create_region_creds region_name b).2.map
                    (fun wr => Effect.vaultWrite wr.1), by simp⟩
    | none =>
        constructor
        · intro hcommit g
          simp only [hcommit, if_true]
          intro hmem
          rcases List.mem_append.mp hmem with hmem1 | hmem2
          · rcases List.mem_append.mp hmem1 with hmem3 | hmem4
            · simp at hmem3
            · rcases List.mem_map.mp hmem4 with ⟨x, _, hx⟩
              cases hx
          · simp at hmem2
        · intro hcommit _
          simp only [hcommit]
          constructor
          · simp
          · exact ⟨[Effect.groupCreate (region_name ++ "-owners"),
              Effect.groupUserAdd user gid] ++
                (create_region_creds region_name b).2.map
                  (fun wr => Effect.vaultWrite wr.1), by simp⟩

theorem c7_witness :
    ((CreateWorld.mk (Except.ok "gid42") true true false).commit_ok = true →
      ∀ g, Effect.groupDelete g ∉
        (create_region (CreateWorld.mk (Except.ok "gid42") true true false)
          "alice" "myregion" none
          (RegionCredBody.mk (CredInput.path "a") (CredInput.path "b")
            (CredInput.path "c"))).2) ∧
    ((CreateWorld.mk (Except.ok "gid42") true true false).commit_ok = false →
      Effect.dbCommit ∈
        (create_region (CreateWorld.mk (Except.ok "gid42") true true false)
          "alice" "myregion" none
          (RegionCredBody.mk (CredInput.path "a") (CredInput.path "b")
            (CredInput.path "c"))).2 →
      (create_region (CreateWorld.mk (Except.ok "gid42") true true false)
          "alice" "myregion" none
          (RegionCredBody.mk (CredInput.path "a") (CredInput.path "b")
            (CredInput.path "c"))).1 = CreateResult.raised ∧
      ∃ pre, (create_region (CreateWorld.mk (Except.ok "gid42") true true false)
          "alice" "myregion" none
          (RegionCredBody.mk (CredInput.path "a") (CredInput.path "b")
            (CredInput.path "c"))).2 =
        pre ++ [Effect.dbCommit, Effect.groupDelete "gid42"]) :=
  c7_create_region_compensation
    (CreateWorld.mk (Except.ok "gid42") true true false)
    "alice" "myregion" none
    (RegionCredBody.mk (CredInput.path "a") (CredInput.path "b")
      (CredInput.path "c"))
    "gid42" rfl

/-- A JSON-patch value in an ironic operation: a string or a number. -/
inductive PatchValue where
  | str (s : String)
  | num (n : Nat)
  deriving DecidableEq, Repr

/-- One patch operation of an `ironic_operations` plan. -/
structure PatchOp where
  op : String
  path : String
  value : PatchValue
  deriving DecidableEq, Repr

/-- `BareMetalImageISO` (`bare_metal/model/image.py` side), the fields used
by the ISO operation plan. -/
structure BareMetalImageISO where
  source_url : String
  kernel_file_path : String
  initramfs_file_path : String
  stage2_file_path : String
  deriving DecidableEq, Repr

/-- `BareMetalImageQCOW2`, the fields used by the QCOW2 operation plan. -/
structure BareMetalImageQCOW2 where
  image_file_path : String
  kernel_file_path : String
  initramfs_file_path : String
  deriving DecidableEq, Repr

/-- `BareMetalProvisionISO` (`bare_metal/model/provision.py`), the fields the
claims need. -/
structure BareMetalProvisionISO where
  id : Nat
  kickstart : String
  image : BareMetalImageISO
  deriving DecidableEq, Repr

/-- `BareMetalProvisionQCOW2`. -/
structure BareMetalProvisionQCOW2 where
  id : Nat
  image : BareMetalImageQCOW2
  deriving DecidableEq, Repr

/-- `BareMetalProvisionISO.kickstart_file`:
`BARE_METAL_KICKSTART_BASE_PATH / "kickstart_(id).cfg"`. The base-path
constant lives in `bare_metal/model/common.py`, which is not among the
sources, so it is passed as a parameter; `Path./` joins with a slash. -/
def BareMetalProvisionISO.kickstart_file (base : String)
    (p : BareMetalProvisionISO) : String :=
  base ++ "/kickstart_" ++ toString p.id ++ ".cfg"

/-- `BareMetalProvisionISO.ironic_operations`. -/
def BareMetalProvisionISO.ironic_operations (base : String)
    (p : BareMetalProvisionISO) : List PatchOp :=
  [⟨"replace", "/deploy_interface", PatchValue.str "anaconda"⟩,
   ⟨"add", "/instance_info/image_source", PatchValue.str p.image.source_url⟩,
   ⟨"add", "/instance_info/kernel",
    PatchValue.str ("file://" ++ p.image.kernel_file_path)⟩,
   ⟨"add", "/instance_info/ks_template",
    PatchValue.str ("file://" ++ p.kickstart_file base)⟩,
   ⟨"add", "/instance_info/ramdisk",
    PatchValue.str ("file://" ++ p.image.initramfs_file_path)⟩,
   ⟨"add", "/instance_info/stage2",
    PatchValue.str ("file://" ++ p.image.stage2_file_path)⟩,
   ⟨"add", "/instance_info/disk_file_extension", PatchValue.str ".img"⟩,
   ⟨"add", "/instance_info/root_gb", PatchValue.num 50⟩]

/-- `BareMetalProvisionQCOW2.ironic_operations`. -/
def BareMetalProvisionQCOW2.ironic_operations (p : BareMetalProvisionQCOW2) :
    List PatchOp :=
  [⟨"replace", "/deploy_interface", PatchValue.str "direct"⟩,
   ⟨"add", "/instance_info/image_source",
    PatchValue.str ("file://" ++ p.image.image_file_path)⟩,
   ⟨"add", "/instance_info/kernel",
    PatchValue.str ("file://" ++ p.image.kernel_file_path)⟩,
   ⟨"add", "/instance_info/ramdisk",
    PatchValue.str ("file://" ++ p.image.initramfs_file_path)⟩,
   ⟨"add", "/instance_info/root_gb", PatchValue.num 50⟩]

/-- C4: for every ISO provision the operation plan contains the replace of
`/deploy_interface` with value `anaconda` and an operation whose value
references the per-provision kickstart file path `kickstart_(id).cfg` under
the kickstart base directory; for every QCOW2 provision the plan contains the
replace of `/deploy_interface` with value `direct`, and no operation touches
the kickstart-template slot — every path in the plan comes from the fixed
kickstart-free path list. -/
theorem c4_ironic_operations (base : String) (iso : BareMetalProvisionISO)
    (q : BareMetalProvisionQCOW2) :
    (⟨"replace", "/deploy_interface", PatchValue.str "anaconda"⟩ ∈
      iso.ironic_operations base) ∧
    (∃ op ∈ iso.ironic_operations base,
      op.path = "/instance_info/ks_template" ∧
      op.value = PatchValue.str ("file://" ++ iso.kickstart_file base)) ∧
    iso.kickstart_file base =
      base ++ "/kickstart_" ++ toString iso.id ++ ".cfg" ∧
    (⟨"replace", "/deploy_interface", PatchValue.str "direct"⟩ ∈
      q.ironic_operations) ∧
    (∀ op ∈ q.ironic_operations, op.path ≠ "/instance_info/ks_template") ∧
    q.ironic_operations.map PatchOp.path =
      ["/deploy_interface", "/instance_info/image_source",
       "/instance_info/kernel", "/instance_info/ramdisk",
       "/instance_info/root_gb"] := by
  refine ⟨?_, ?_, ?_, ?_, ?_, rfl⟩
  · simp [BareMetalProvisionISO.ironic_operations]
  · refine ⟨⟨"add", "/instance_info/ks_template",
      PatchValue.str ("file://" ++ iso.kickstart_file base)⟩, ?_, rfl, rfl⟩
    simp [BareMetalProvisionISO.ironic_operations]
  · rfl
  · simp [BareMetalProvisionQCOW2.ironic_operations]
  · intro op hop
    unfold BareMetalProvisionQCOW2.ironic_operations at hop
    simp only [List.mem_cons, List.not_mem_nil, or_false] at hop
    rcases hop with h | h | h | h | h
    all_goals (rw [h]; simp)

theorem c4_witness :
    (⟨"replace", "/deploy_interface", PatchValue.str "anaconda"⟩ ∈
      (BareMetalProvisionISO.mk 9 "kickstart template"
        (BareMetalImageISO.mk "http://img/iso" "/k" "/i" "/s")).ironic_operations
        "/srv/kickstarts") ∧
    (∃ op ∈ (BareMetalProvisionISO.mk 9 "kickstart template"
        (BareMetalImageISO.mk "http://img/iso" "/k" "/i" "/s")).ironic_operations
        "/srv/kickstarts",
      op.path = "/instance_info/ks_template" ∧
      op.value = PatchValue.str ("file://" ++
        (BareMetalProvisionISO.mk 9 "kickstart template"
          (BareMetalImageISO.mk "http://img/iso" "/k" "/i" "/s")).kickstart_file
          "/srv/kickstarts")) ∧
    (BareMetalProvisionISO.mk 9 "kickstart template"
        (BareMetalImageISO.mk "http://img/iso" "/k" "/i" "/s")).kickstart_file
        "/srv/kickstarts" =
      "/srv/kickstarts" ++ "/kickstart_" ++ toString
        (BareMetalProvisionISO.mk 9 "kickstart template"
          (BareMetalImageISO.mk "http://img/iso" "/k" "/i" "/s")).id ++ ".cfg" ∧
    (⟨"replace", "/deploy_interface", PatchValue.str "direct"⟩ ∈
      (BareMetalProvisionQCOW2.mk 4
        (BareMetalImageQCOW2.mk "/q.qcow2" "/k" "/i")).ironic_operations) ∧
    (∀ op ∈ (BareMetalProvisionQCOW2.mk 4
        (BareMetalImageQCOW2.mk "/q.qcow2" "/k" "/i")).ironic_operations,
      op.path ≠ "/instance_info/ks_template") ∧
    (BareMetalProvisionQCOW2.mk 4
        (BareMetalImageQCOW2.mk "/q.qcow2" "/k" "/i")).ironic_operations.map
        PatchOp.path =
      ["/deploy_interface", "/instance_info/image_source",
       "/instance_info/kernel", "/instance_info/ramdisk",
       "/instance_info/root_gb"] :=
  c4_ironic_operations "/srv/kickstarts"
    (BareMetalProvisionISO.mk 9 "kickstart template"
      (BareMetalImageISO.mk "http://img/iso" "/k" "/i" "/s"))
    (BareMetalProvisionQCOW2.mk 4 (BareMetalImageQCOW2.mk "/q.qcow2" "/k" "/i"))

end Rhub
